import Mathlib

/-!
Verification of the `controlled-option` library: a shallow embedding of the
`Niche` capability contract, the generic `ControlledOption` wrapper, the
pre-supplied `Niche` conformances (references and NonZero integer types), and
the derive macro's field-selection and code-generation logic, together with
proofs of the specified properties.

Modelling conventions:
- Machine integers are modelled as `Fin (2^w)` (unsigned) or bounded `Int`
  subtypes (signed); pointers as natural-number addresses with null = 0.
- Fallible/UB operations (e.g. `NonZero::new_unchecked` on 0, dereferencing a
  null pointer, reading uninitialized memory) return `Option`, with
  `Option.none` marking undefined behavior.
- `MaybeUninit` record-shaped storage is a list of optional bytes, where an
  uninitialized byte is `Option.none`.
-/

/--
The `Niche` trait from `src/lib.rs` (lines 33-63): a per-type capability
contract with a storage type `S` (`type Output` in the source), a `None`
sentinel, a sentinel test, and conversions between the value type `V` and
storage. `from_some` is `S → Option V` because the source's `from_some` is
undefined (UB) on the `None` sentinel; `Option.none` models that UB.
-/
structure NicheImpl (V : Type) (S : Type) where
  none : S
  is_none : S → Bool
  into_some : V → S
  from_some : S → Option V

/--
The contract invariant stated in the spec for conforming implementations:
`is_none(none())` is true, `is_none(into_some(v))` is false for every `v`,
and `from_some(into_some(v))` reproduces `v`.
-/
def NicheImpl.Lawful {V S : Type} (N : NicheImpl V S) : Prop :=
  N.is_none N.none = true ∧
  (∀ v : V, N.is_none (N.into_some v) = false) ∧
  (∀ v : V, N.from_some (N.into_some v) = Option.some v)

/--
`ControlledOption<T>` from `src/lib.rs` (lines 70-75): a single-field holder
of the storage type `T::Output`. In the embedding the contract implementation
`N : NicheImpl V S` is passed explicitly to each operation.
-/
structure ControlledOption (S : Type) where
  value : S

/-- `ControlledOption::none` (src/lib.rs lines 83-87). The debug assertion does
not change the value and is omitted. -/
def ControlledOption.none {V S : Type} (N : NicheImpl V S) : ControlledOption S :=
  { value := N.none }

/-- `ControlledOption::some` (src/lib.rs lines 91-95). -/
def ControlledOption.some {V S : Type} (N : NicheImpl V S) (v : V) : ControlledOption S :=
  { value := N.into_some v }

/-- `ControlledOption::is_none` (src/lib.rs lines 99-101). -/
def ControlledOption.is_none {V S : Type} (N : NicheImpl V S) (o : ControlledOption S) : Bool :=
  N.is_none o.value

/-- `ControlledOption::is_some` (src/lib.rs lines 105-107). -/
def ControlledOption.is_some {V S : Type} (N : NicheImpl V S) (o : ControlledOption S) : Bool :=
  !(N.is_none o.value)

/-- `impl From<Option<T>> for ControlledOption<T>` (src/lib.rs lines 147-158),
also reached through `ControlledOption::from_option` (lines 113-115). -/
def ControlledOption.from_option {V S : Type} (N : NicheImpl V S) :
    Option V → ControlledOption S
  | Option.some v => ControlledOption.some N v
  | Option.none => ControlledOption.none N

/-- `impl Into<Option<T>> for ControlledOption<T>` (src/lib.rs lines 160-172),
also reached through `ControlledOption::into_option` (lines 122-124):
`from_some` is applied only in the branch where `is_none` returned false. -/
def ControlledOption.into_option {V S : Type} (N : NicheImpl V S)
    (o : ControlledOption S) : Option V :=
  if N.is_none o.value then Option.none else N.from_some o.value

/-- `impl Default for ControlledOption<T>` (src/lib.rs lines 127-135). -/
def ControlledOption.default {V S : Type} (N : NicheImpl V S) : ControlledOption S :=
  ControlledOption.none N

/-- `impl Debug for ControlledOption<T>` (src/lib.rs lines 190-204). `d` models
the `Debug` formatting of the value type. The `Some` branch applies `from_some`
to the stored value; an `Option.none` result of the whole formatter marks the
UB of `from_some` on an unexpected input, which the formatter never triggers
on contract-produced storage. -/
def ControlledOption.debug_fmt {V S : Type} (N : NicheImpl V S) (d : V → String)
    (o : ControlledOption S) : Option String :=
  if N.is_none o.value then
    Option.some "ControlledOption::None"
  else
    (N.from_some o.value).map
      (fun v => "ControlledOption::Some(" ++ d v ++ ")")

/-! ### Pre-supplied conformances: references (src/lib.rs lines 333-379) -/

/-- A Rust reference `&T` / `&mut T`, modelled as its (non-null) address. -/
def Ref : Type := {a : Nat // a ≠ 0}

/-- `impl Niche for &'a T` (src/lib.rs lines 333-355): storage is `*const T`
(a raw address), the sentinel is the null pointer, and the conversions are
the identity on the address. `from_some` on a null address is UB
(`unsafe { &*value }`), modelled as `Option.none`. -/
def refNiche : NicheImpl Ref Nat where
  none := 0
  is_none := fun s => s == 0
  into_some := fun v => v.val
  from_some := fun s => if h : s = 0 then Option.none else Option.some ⟨s, h⟩

/-- `impl Niche for &'a mut T` (src/lib.rs lines 357-379): identical to the
shared-reference conformance with `*mut T` storage. -/
def refMutNiche : NicheImpl Ref Nat where
  none := 0
  is_none := fun s => s == 0
  into_some := fun v => v.val
  from_some := fun s => if h : s = 0 then Option.none else Option.some ⟨s, h⟩

/-! ### Pre-supplied conformances: NonZero integers (src/lib.rs lines 384-622)

The ten `impl Niche for NonZero*` blocks are textually identical up to the
integer type. They are embedded by two templates, one for unsigned widths and
one for signed widths, instantiated at each width that occurs in the source. -/

/-- An unsigned `w`-bit machine integer (`u8`, ..., `usize`). -/
def UIntN (w : Nat) : Type := Fin (2 ^ w)

/-- A signed `w`-bit machine integer (`i8`, ..., `isize`). -/
def IntN (w : Nat) : Type :=
  {n : Int // -(2 ^ (w - 1)) ≤ n ∧ n < 2 ^ (w - 1)}

/-- The value 0 as an unsigned `w`-bit integer. -/
def UIntN.zero (w : Nat) : UIntN w :=
  ⟨0, Nat.pos_pow_of_pos w (by decide)⟩

/-- The value 0 as a signed `w`-bit integer. -/
def IntN.zero (w : Nat) : IntN w :=
  ⟨0, ⟨neg_nonpos.mpr (by positivity), by positivity⟩⟩

/-- The `NonZeroU*` types: an unsigned `w`-bit integer that is not 0. -/
def NonZeroUIntN (w : Nat) : Type := {n : UIntN w // n.val ≠ 0}

/-- The `NonZeroI*` types: a signed `w`-bit integer that is not 0. -/
def NonZeroIntN (w : Nat) : Type := {n : IntN w // n.val ≠ 0}

/-- Template for `impl Niche for NonZeroU*` (e.g. src/lib.rs lines 552-574 for
`NonZeroU32`): storage is the unsigned integer type itself, `none()` is `0`,
`is_none` is `*value == 0`, `into_some` is `value.get()`, and `from_some` is
`NonZero::new_unchecked(value)` — UB when the value is 0, modelled as
`Option.none`. -/
def nonZeroUNiche (w : Nat) : NicheImpl (NonZeroUIntN w) (UIntN w) where
  none := UIntN.zero w
  is_none := fun s => s.val == 0
  into_some := fun v => v.val
  from_some := fun s =>
    if h : s.val = 0 then Option.none else Option.some ⟨s, h⟩

/-- Template for `impl Niche for NonZeroI*` (e.g. src/lib.rs lines 384-406 for
`NonZeroI8`): same shape as the unsigned template over a signed integer type. -/
def nonZeroINiche (w : Nat) : NicheImpl (NonZeroIntN w) (IntN w) where
  none := IntN.zero w
  is_none := fun s => s.val == 0
  into_some := fun v => v.val
  from_some := fun s =>
    if h : s.val = 0 then Option.none else Option.some ⟨s, h⟩

/-- `impl Niche for std::num::NonZeroI8` (src/lib.rs lines 384-406). -/
def nonZeroI8Niche : NicheImpl (NonZeroIntN 8) (IntN 8) := nonZeroINiche 8

/-- `impl Niche for std::num::NonZeroI16` (src/lib.rs lines 408-430). -/
def nonZeroI16Niche : NicheImpl (NonZeroIntN 16) (IntN 16) := nonZeroINiche 16

/-- `impl Niche for std::num::NonZeroI32` (src/lib.rs lines 432-454). -/
def nonZeroI32Niche : NicheImpl (NonZeroIntN 32) (IntN 32) := nonZeroINiche 32

/-- `impl Niche for std::num::NonZeroI64` (src/lib.rs lines 456-478). -/
def nonZeroI64Niche : NicheImpl (NonZeroIntN 64) (IntN 64) := nonZeroINiche 64

/-- `impl Niche for std::num::NonZeroIsize` (src/lib.rs lines 480-502), on a
64-bit target. -/
def nonZeroIsizeNiche : NicheImpl (NonZeroIntN 64) (IntN 64) := nonZeroINiche 64

/-- `impl Niche for std::num::NonZeroU8` (src/lib.rs lines 504-526). -/
def nonZeroU8Niche : NicheImpl (NonZeroUIntN 8) (UIntN 8) := nonZeroUNiche 8

/-- `impl Niche for std::num::NonZeroU16` (src/lib.rs lines 528-550). -/
def nonZeroU16Niche : NicheImpl (NonZeroUIntN 16) (UIntN 16) := nonZeroUNiche 16

/-- `impl Niche for std::num::NonZeroU32` (src/lib.rs lines 552-574). -/
def nonZeroU32Niche : NicheImpl (NonZeroUIntN 32) (UIntN 32) := nonZeroUNiche 32

/-- `impl Niche for std::num::NonZeroU64` (src/lib.rs lines 576-598). -/
def nonZeroU64Niche : NicheImpl (NonZeroUIntN 64) (UIntN 64) := nonZeroUNiche 64

/-- `impl Niche for std::num::NonZeroUsize` (src/lib.rs lines 600-622), on a
64-bit target. -/
def nonZeroUsizeNiche : NicheImpl (NonZeroUIntN 64) (UIntN 64) := nonZeroUNiche 64

/-! ### Record-shaped `MaybeUninit` storage (derived impls, byte level)

The derive macro (src/controlled-option-macros/src/lib.rs lines 99-133) makes
the storage type of a struct `MaybeUninit<Self>`: the struct's own bytes, some
of which may be uninitialized. A byte of such storage is `Option (Fin 256)`,
with `Option.none` for an uninitialized byte. -/

/-- One byte of `MaybeUninit` record-shaped storage. -/
abbrev MemByte : Type := Option (Fin 256)

/-- `MaybeUninit::uninit()`: storage of `size` bytes, all uninitialized. -/
def uninitStorage (size : Nat) : List MemByte :=
  List.replicate size Option.none

/-- The four little-endian bytes of a `u32` value. -/
def u32LEBytes (n : Nat) : List (Fin 256) :=
  [⟨n % 256, Nat.mod_lt _ (by decide)⟩,
   ⟨n / 256 % 256, Nat.mod_lt _ (by decide)⟩,
   ⟨n / 65536 % 256, Nat.mod_lt _ (by decide)⟩,
   ⟨n / 16777216 % 256, Nat.mod_lt _ (by decide)⟩]

/-- Overwrite the bytes of `s` starting at offset `off` with the (initialized)
bytes `bs`; models the raw-pointer write of `fill_struct_field_with_none`
(src/lib.rs lines 311-318) at a field's offset. -/
def writeBytesAt (s : List MemByte) (off : Nat) (bs : List (Fin 256)) :
    List MemByte :=
  s.take off ++ bs.map Option.some ++ s.drop (off + bs.length)

/-- Read a run of bytes, succeeding only if every byte is initialized; reading
an uninitialized byte is UB, modelled as `Option.none`. -/
def readInit : List MemByte → Option (List (Fin 256))
  | [] => Option.some []
  | Option.none :: _ => Option.none
  | Option.some b :: rest => (readInit rest).map (fun bs => b :: bs)

/-- Little-endian value of a byte list. -/
def bytesToNatLE : List (Fin 256) → Nat
  | [] => 0
  | b :: rest => b.val + 256 * bytesToNatLE rest

/-- Read the `u32` stored at byte offset `off`, UB if any byte is
uninitialized; models the typed read in `struct_field_is_none`
(src/lib.rs lines 321-328). -/
def readU32At (s : List MemByte) (off : Nat) : Option Nat :=
  (readInit ((s.drop off).take 4)).map bytesToNatLE

/-- The two-field test struct (tests/it/main.rs lines 47-52): `#[repr(C)]`
with fields `a : NonZeroU32` at offset 0 and `b : NonZeroU32` at offset 4,
where `b` is the designated niche field. -/
structure TestStruct where
  a : NonZeroUIntN 32
  b : NonZeroUIntN 32

/-- The struct's own bytes under the `#[repr(C)]` layout: the plain
concatenation of the fields' little-endian bytes. -/
def TestStruct.record_bytes (v : TestStruct) : List (Fin 256) :=
  u32LEBytes v.a.val.val ++ u32LEBytes v.b.val.val

/-- The derived `none()` for `TestStruct` (generated code, macros lib.rs lines
106-113): allocate uninitialized record-shaped storage, then
`fill_struct_field_with_none` writes the niche field's own `none()` value
(`NonZeroU32::none() = 0`) at field `b`'s offset; all other bytes stay
uninitialized. -/
def TestStruct.derived_none : List MemByte :=
  writeBytesAt (uninitStorage 8) 4 (u32LEBytes nonZeroU32Niche.none.val)

/-- The derived `into_some` for `TestStruct` (generated code, macros lib.rs
lines 124-126): `MaybeUninit::new(value)` — the fully-initialized record's own
bytes, verbatim. -/
def TestStruct.derived_into_some (v : TestStruct) : List MemByte :=
  (TestStruct.record_bytes v).map Option.some

/-- The derived `is_none` for `TestStruct` (generated code, macros lib.rs
lines 116-121): `struct_field_is_none` reads only the niche field `b`'s bytes
as a `u32` and delegates to `NonZeroU32`'s `is_none` (`*value == 0`). Reading
an uninitialized byte is UB (`Option.none`). -/
def TestStruct.derived_is_none (s : List MemByte) : Option Bool :=
  (readU32At s 4).map (fun n => n == 0)

/-- The derived `from_some` for `TestStruct` (generated code, macros lib.rs
lines 129-131): `assume_init()` — UB unless every byte is initialized. -/
def TestStruct.derived_from_some (s : List MemByte) : Option (List (Fin 256)) :=
  readInit s

/-! ### The derive macro's field selection (controlled-option-macros)

`derive_decode` (src/controlled-option-macros/src/lib.rs lines 41-143)
inspects the struct's fields, finds the first field carrying the `#[niche]`
attribute, and either emits the implementation delegating to that field or
fails with a descriptive compile error. The embedding covers the
field-selection front end: which field (name or index, and its type) is
chosen, or which error message is produced. -/

/-- A field of the input struct as the macro sees it: an optional identifier
(`None` for tuple-struct fields), the attribute paths, and the field's type
(as a token string). Mirrors `syn::Field`. -/
structure RecordField where
  ident : Option String
  attrs : List String
  ty : String
deriving DecidableEq

/-- `field_is_niche` (macros lib.rs lines 21-28): true when some attribute's
path is the identifier `niche`. -/
def field_is_niche (f : RecordField) : Bool :=
  f.attrs.any (fun a => a == "niche")

/-- `syn::Member`: a named field or a positional index. -/
inductive Member : Type where
  | named : String → Member
  | unnamed : Nat → Member
deriving DecidableEq

/-- The three field shapes of `syn::Fields`: named fields, unnamed
(tuple-like) fields, or a unit struct. -/
inductive RecordFields : Type where
  | named : List RecordField → RecordFields
  | unnamed : List RecordField → RecordFields
  | unit : RecordFields
deriving DecidableEq

/-- Rust's `Iterator::enumerate`, pairing each element with its index
starting from `n`. -/
def enumerate {α : Type} (n : Nat) : List α → List (Nat × α)
  | [] => []
  | x :: xs => (n, x) :: enumerate (n + 1) xs

/-- The field-selection logic of `derive_decode` (macros lib.rs lines 52-92):
returns the selected niche field's `Member` (name or index) and its type, or
the error message of the emitted compile error. -/
def derive_select : RecordFields → Except String (Member × String)
  | RecordFields.named fs =>
    match fs.find? field_is_niche with
    | Option.some f =>
      match f.ident with
      | Option.some id => Except.ok (Member.named id, f.ty)
      | Option.none =>
        Except.error "#[derive(Niche)] requires a field marked #[niche]"
    | Option.none =>
      Except.error "#[derive(Niche)] requires a field marked #[niche]"
  | RecordFields.unnamed fs =>
    match (enumerate 0 fs).find? (fun p => field_is_niche p.2) with
    | Option.some (idx, f) => Except.ok (Member.unnamed idx, f.ty)
    | Option.none =>
      Except.error "#[derive(Niche)] requires a field marked #[niche]"
  | RecordFields.unit =>
    Except.error "#[derive(Niche)] cannot be used on an empty tuple struct"

/-! ### Concrete example values used by the claims -/

/-- The record `TestStruct::new(75, 125)` (tests/it/main.rs line 123). -/
def testRecord75_125 : TestStruct :=
  { a := ⟨⟨75, by decide⟩, by decide⟩, b := ⟨⟨125, by decide⟩, by decide⟩ }

/-- The `NonZeroU32` value 75. -/
def nz75 : NonZeroUIntN 32 := ⟨⟨75, by decide⟩, by decide⟩

/-- A variant of the `NonZeroU32` conformance whose `from_some` is replaced by
a constant: used to observe that the wrapper's `None`-state paths never depend
on `from_some`. -/
def brokenFromSomeU32 : NicheImpl (NonZeroUIntN 32) (UIntN 32) :=
  { nonZeroU32Niche with from_some := fun _ => Option.none }

/-- A named field `a : NonZeroU32` without the `#[niche]` attribute. -/
def fieldA : RecordField := ⟨Option.some "a", [], "NonZeroU32"⟩

/-- A named field `b : NonZeroU32` carrying the `#[niche]` attribute. -/
def fieldB : RecordField := ⟨Option.some "b", ["niche"], "NonZeroU32"⟩

/-- A named field `c : NonZeroU64` also carrying the `#[niche]` attribute. -/
def fieldC : RecordField := ⟨Option.some "c", ["niche"], "NonZeroU64"⟩

/-! ### Lawfulness of the pre-supplied conformances -/

theorem refNiche_lawful : refNiche.Lawful := by
  refine ⟨rfl, ?_, ?_⟩
  · intro v
    simp [refNiche, v.property]
  · intro v
    simp only [refNiche]
    rw [dif_neg v.property]
    exact congrArg Option.some (Subtype.ext rfl)

theorem refMutNiche_lawful : refMutNiche.Lawful := by
  refine ⟨rfl, ?_, ?_⟩
  · intro v
    simp [refMutNiche, v.property]
  · intro v
    simp only [refMutNiche]
    rw [dif_neg v.property]
    exact congrArg Option.some (Subtype.ext rfl)

theorem nonZeroUNiche_lawful (w : Nat) : (nonZeroUNiche w).Lawful := by
  refine ⟨rfl, ?_, ?_⟩
  · intro v
    simp [nonZeroUNiche, v.property]
  · intro v
    simp only [nonZeroUNiche]
    rw [dif_neg v.property]
    exact congrArg Option.some (Subtype.ext rfl)

theorem nonZeroINiche_lawful (w : Nat) : (nonZeroINiche w).Lawful := by
  constructor
  · simp [nonZeroINiche, IntN.zero]
  refine ⟨?_, ?_⟩
  · intro v
    simp [nonZeroINiche, v.property]
  · intro v
    simp only [nonZeroINiche]
    rw [dif_neg v.property]
    exact congrArg Option.some (Subtype.ext rfl)

/-! ### Helper lemmas about `find?` and `enumerate` -/

theorem find?_eq_some_of_first {α : Type} (p : α → Bool) (l : List α)
    (i : Nat) (x : α) (hget : l.get? i = Option.some x) (hx : p x = true)
    (hfirst : ∀ j y, j < i → l.get? j = Option.some y → p y = false) :
    l.find? p = Option.some x := by
  induction l generalizing i with
  | nil => simp at hget
  | cons a as ih =>
    cases i with
    | zero =>
      simp only [List.get?] at hget
      cases hget
      exact List.find?_cons_of_pos _ hx
    | succ k =>
      have ha : p a = false := hfirst 0 a (Nat.succ_pos k) rfl
      rw [List.find?_cons_of_neg _ (by simp [ha])]
      exact ih k hget (fun j y hj hg => hfirst (j + 1) y (Nat.succ_lt_succ hj) hg)

theorem enumerate_get? {α : Type} (n : Nat) (l : List α) (j : Nat) :
    (enumerate n l).get? j = (l.get? j).map (fun x => (n + j, x)) := by
  induction l generalizing n j with
  | nil => simp [enumerate]
  | cons x xs ih =>
    cases j with
    | zero => simp [enumerate]
    | succ k =>
      simp only [enumerate, List.get?]
      rw [ih (n + 1) k]
      have harith : n + 1 + k = n + (k + 1) := by omega
      rw [harith]

theorem enumerate_mem_snd {α : Type} {n : Nat} {l : List α} {q : Nat × α}
    (hq : q ∈ enumerate n l) : q.2 ∈ l := by
  induction l generalizing n with
  | nil => simp [enumerate] at hq
  | cons x xs ih =>
    simp only [enumerate, List.mem_cons] at hq
    rcases hq with hq | hq
    · subst hq; exact List.mem_cons_self x xs
    · exact List.mem_cons_of_mem x (ih hq)

/-! ### Claim theorems -/

/-- C1: for the derived record conformance with designated niche field `b` of
NonZero-integer type, `none()` produces record-shaped storage whose `b`-field
bytes are the field type's own `none()` sentinel (the bytes of 0) while the
`a`-field bytes stay uninitialized; and `into_some` on the fully-initialized
record `a=75, b=125` is bit-identical to the record's plain concatenation
layout (`a` bytes 75, `b` bytes 125). -/
theorem derived_record_none_and_into_some :
    TestStruct.derived_none =
      [Option.none, Option.none, Option.none, Option.none] ++
        (u32LEBytes nonZeroU32Niche.none.val).map Option.some ∧
    nonZeroU32Niche.none.val = 0 ∧
    TestStruct.derived_into_some testRecord75_125 =
      (u32LEBytes 75 ++ u32LEBytes 125).map Option.some := by
  decide

/-- C2: the derived `is_none` reads only the designated niche field's bytes
and delegates to that field type's `is_none`: any two record-shaped storage
values agreeing on the niche field's bytes (offsets 4..8) get the same answer,
and whenever the niche field holds an initialized `u32` the answer is exactly
`NonZeroU32`'s `is_none` on that value. -/
theorem derived_is_none_reads_only_niche_field :
    (∀ s1 s2 : List MemByte,
        (s1.drop 4).take 4 = (s2.drop 4).take 4 →
        TestStruct.derived_is_none s1 = TestStruct.derived_is_none s2) ∧
    (∀ (s : List MemByte) (u : UIntN 32),
        readU32At s 4 = Option.some u.val →
        TestStruct.derived_is_none s = Option.some (nonZeroU32Niche.is_none u)) := by
  constructor
  · intro s1 s2 h
    simp only [TestStruct.derived_is_none, readU32At, h]
  · intro s u h
    simp only [TestStruct.derived_is_none]
    rw [h]
    rfl

/-- Witness for C2 at concrete inputs: the derived `none()` storage and a
storage with a different (initialized) `a` field but the same `b` bytes agree
on `is_none`, and on `none()`'s storage the answer delegates to `NonZeroU32`'s
`is_none` at 0. -/
theorem derived_is_none_reads_only_niche_field_witness :
    TestStruct.derived_is_none TestStruct.derived_none =
      TestStruct.derived_is_none
        ((u32LEBytes 9).map Option.some ++ (u32LEBytes 0).map Option.some) ∧
    TestStruct.derived_is_none TestStruct.derived_none =
      Option.some (nonZeroU32Niche.is_none (UIntN.zero 32)) :=
  ⟨derived_is_none_reads_only_niche_field.1 _ _ (by decide),
   derived_is_none_reads_only_niche_field.2 _ (UIntN.zero 32) (by decide)⟩

/-- C3: for any contract implementation satisfying the invariant, round-
tripping a plain optional through the wrapper is the identity:
`from_option (some v)` followed by `into_option` gives `some v`, and
`from_option none` followed by `into_option` gives `none`. -/
theorem wrapper_option_round_trip {V S : Type} (N : NicheImpl V S)
    (h : N.Lawful) :
    (∀ v : V,
      ControlledOption.into_option N
        (ControlledOption.from_option N (Option.some v)) = Option.some v) ∧
    ControlledOption.into_option N
      (ControlledOption.from_option N Option.none) = Option.none := by
  obtain ⟨h1, h2, h3⟩ := h
  constructor
  · intro v
    simp [ControlledOption.from_option, ControlledOption.some,
      ControlledOption.into_option, h2 v, h3 v]
  · simp [ControlledOption.from_option, ControlledOption.none,
      ControlledOption.into_option, h1]

/-- Witness for C3 at the `NonZeroU32` conformance and the value 75. -/
theorem wrapper_option_round_trip_witness :
    ControlledOption.into_option nonZeroU32Niche
      (ControlledOption.from_option nonZeroU32Niche (Option.some nz75)) =
        Option.some nz75 ∧
    ControlledOption.into_option nonZeroU32Niche
      (ControlledOption.from_option nonZeroU32Niche Option.none) =
        Option.none :=
  ⟨(wrapper_option_round_trip nonZeroU32Niche (nonZeroUNiche_lawful 32)).1 nz75,
   (wrapper_option_round_trip nonZeroU32Niche (nonZeroUNiche_lawful 32)).2⟩

/-- C4: every pre-supplied conformance — shared references, mutable
references, and each NonZero integer type — satisfies the contract invariant:
`is_none(none())` is true, `is_none(into_some(v))` is false for every `v`, and
`from_some(into_some(v))` reproduces `v` bit-for-bit. -/
theorem presupplied_conformances_lawful :
    refNiche.Lawful ∧ refMutNiche.Lawful ∧
    nonZeroI8Niche.Lawful ∧ nonZeroI16Niche.Lawful ∧
    nonZeroI32Niche.Lawful ∧ nonZeroI64Niche.Lawful ∧
    nonZeroIsizeNiche.Lawful ∧
    nonZeroU8Niche.Lawful ∧ nonZeroU16Niche.Lawful ∧
    nonZeroU32Niche.Lawful ∧ nonZeroU64Niche.Lawful ∧
    nonZeroUsizeNiche.Lawful :=
  ⟨refNiche_lawful, refMutNiche_lawful,
   nonZeroINiche_lawful 8, nonZeroINiche_lawful 16,
   nonZeroINiche_lawful 32, nonZeroINiche_lawful 64,
   nonZeroINiche_lawful 64,
   nonZeroUNiche_lawful 8, nonZeroUNiche_lawful 16,
   nonZeroUNiche_lawful 32, nonZeroUNiche_lawful 64,
   nonZeroUNiche_lawful 64⟩

/-- C5: the NonZero integer conformances (here `NonZeroU32` and `NonZeroI8`,
the two cited in the sources) define `none()` as 0, `is_none(s)` as true
exactly when `s = 0`, `into_some(n)` as the underlying integer `n`, and
`from_some` on storage `n ≠ 0` as the non-zero integer wrapping `n`. -/
theorem nonzero_conformance_spec :
    (nonZeroU32Niche.none.val = 0 ∧
     (∀ s : UIntN 32, nonZeroU32Niche.is_none s = true ↔ s.val = 0) ∧
     (∀ v : NonZeroUIntN 32, nonZeroU32Niche.into_some v = v.val) ∧
     (∀ (s : UIntN 32) (h : s.val ≠ 0),
        nonZeroU32Niche.from_some s = Option.some ⟨s, h⟩)) ∧
    (nonZeroI8Niche.none.val = 0 ∧
     (∀ s : IntN 8, nonZeroI8Niche.is_none s = true ↔ s.val = 0) ∧
     (∀ v : NonZeroIntN 8, nonZeroI8Niche.into_some v = v.val) ∧
     (∀ (s : IntN 8) (h : s.val ≠ 0),
        nonZeroI8Niche.from_some s = Option.some ⟨s, h⟩)) := by
  refine ⟨⟨rfl, ?_, fun v => rfl, ?_⟩, ⟨rfl, ?_, fun v => rfl, ?_⟩⟩
  · intro s
    simp [nonZeroU32Niche, nonZeroUNiche]
  · intro s h
    simp only [nonZeroU32Niche, nonZeroUNiche]
    rw [dif_neg h]
  · intro s
    simp [nonZeroI8Niche, nonZeroINiche]
  · intro s h
    simp only [nonZeroI8Niche, nonZeroINiche]
    rw [dif_neg h]

/-- Witness for C5: `from_some` at the non-zero storage values 75 (`u32`) and
-3 (`i8`) yields the wrapped non-zero integers. -/
theorem nonzero_conformance_spec_witness :
    nonZeroU32Niche.from_some ⟨75, by decide⟩ =
      Option.some ⟨⟨75, by decide⟩, by decide⟩ ∧
    nonZeroI8Niche.from_some ⟨-3, by decide⟩ =
      Option.some ⟨⟨-3, by decide⟩, by decide⟩ :=
  ⟨nonzero_conformance_spec.1.2.2.2 ⟨75, by decide⟩ (by decide),
   nonzero_conformance_spec.2.2.2.2 ⟨-3, by decide⟩ (by decide)⟩

/-- C6: the reference conformances define `none()` as the null address,
`is_none(s)` as true exactly when `s` is null, `into_some` as the reference's
own address, and `from_some` of a non-null stored address as the reference to
that address; this holds for both the shared- and mutable-reference
conformances. -/
theorem reference_conformance_spec :
    (refNiche.none = 0 ∧
     (∀ s : Nat, refNiche.is_none s = true ↔ s = 0) ∧
     (∀ v : Ref, refNiche.into_some v = v.val) ∧
     (∀ (s : Nat) (h : s ≠ 0), refNiche.from_some s = Option.some ⟨s, h⟩)) ∧
    (refMutNiche.none = 0 ∧
     (∀ s : Nat, refMutNiche.is_none s = true ↔ s = 0) ∧
     (∀ v : Ref, refMutNiche.into_some v = v.val) ∧
     (∀ (s : Nat) (h : s ≠ 0), refMutNiche.from_some s = Option.some ⟨s, h⟩)) := by
  refine ⟨⟨rfl, ?_, fun v => rfl, ?_⟩, ⟨rfl, ?_, fun v => rfl, ?_⟩⟩
  · intro s
    simp [refNiche]
  · intro s h
    simp only [refNiche]
    rw [dif_neg h]
  · intro s
    simp [refMutNiche]
  · intro s h
    simp only [refMutNiche]
    rw [dif_neg h]

/-- Witness for C6: `from_some` of both reference conformances at the
non-null address 75 yields the reference to address 75. -/
theorem reference_conformance_spec_witness :
    refNiche.from_some 75 = Option.some ⟨75, by decide⟩ ∧
    refMutNiche.from_some 75 = Option.some ⟨75, by decide⟩ :=
  ⟨reference_conformance_spec.1.2.2.2 75 (by decide),
   reference_conformance_spec.2.2.2.2 75 (by decide)⟩

/-- C7: the wrapper never projects `None`-state storage through `from_some`:
on storage whose `is_none` test is true, `into_option` returns the plain
`None` and the debug formatter prints the distinct `ControlledOption::None`
tag, and both results are unchanged under any replacement of the contract's
`from_some` (so `from_some` is applied only in the `Some` branches). -/
theorem wrapper_never_projects_none_state {V S : Type}
    (N N' : NicheImpl V S) (d : V → String) (o : ControlledOption S)
    (hsame : N.is_none = N'.is_none)
    (hnone : N.is_none o.value = true) :
    ControlledOption.into_option N o = Option.none ∧
    ControlledOption.debug_fmt N d o = Option.some "ControlledOption::None" ∧
    ControlledOption.into_option N o = ControlledOption.into_option N' o ∧
    ControlledOption.debug_fmt N d o = ControlledOption.debug_fmt N' d o := by
  have hnone2 : N'.is_none o.value = true := by rw [← hsame]; exact hnone
  refine ⟨?_, ?_, ?_, ?_⟩ <;>
    simp [ControlledOption.into_option, ControlledOption.debug_fmt, hnone, hnone2]

/-- Witness for C7: the `NonZeroU32` conformance and a variant whose
`from_some` is replaced by a constant agree on the `None`-state wrapper, which
converts to the plain `None` and formats as the `ControlledOption::None`
tag. -/
theorem wrapper_never_projects_none_state_witness :
    ControlledOption.into_option nonZeroU32Niche
      (ControlledOption.none nonZeroU32Niche) = Option.none ∧
    ControlledOption.debug_fmt nonZeroU32Niche (fun _ => "_")
      (ControlledOption.none nonZeroU32Niche) =
        Option.some "ControlledOption::None" ∧
    ControlledOption.into_option nonZeroU32Niche
      (ControlledOption.none nonZeroU32Niche) =
      ControlledOption.into_option brokenFromSomeU32
        (ControlledOption.none nonZeroU32Niche) ∧
    ControlledOption.debug_fmt nonZeroU32Niche (fun _ => "_")
      (ControlledOption.none nonZeroU32Niche) =
      ControlledOption.debug_fmt brokenFromSomeU32 (fun _ => "_")
        (ControlledOption.none nonZeroU32Niche) :=
  wrapper_never_projects_none_state nonZeroU32Niche brokenFromSomeU32
    (fun _ => "_") (ControlledOption.none nonZeroU32Niche) rfl rfl

/-- C8 counterexample: a record with zero fields does not always fail with the
"empty record" error. The braced record `struct Foo {}` has zero fields
(`RecordFields.named []`), yet the macro emits the missing-niche-marker error,
not the empty-record ("empty tuple struct") error. -/
theorem empty_named_record_gets_marker_error :
    derive_select (RecordFields.named []) =
      Except.error "#[derive(Niche)] requires a field marked #[niche]" ∧
    derive_select (RecordFields.named []) ≠
      Except.error "#[derive(Niche)] cannot be used on an empty tuple struct" := by
  refine ⟨rfl, ?_⟩
  intro hcontra
  rw [show derive_select (RecordFields.named []) =
      Except.error "#[derive(Niche)] requires a field marked #[niche]" from rfl]
    at hcontra
  simp only [Except.error.injEq] at hcontra
  exact absurd hcontra (by decide)

/-- C8 (amended): derivation is always rejected with a descriptive
generation-time error, never producing a partial implementation: a unit record
fails with the "empty tuple struct" (empty record) error, while a named or
tuple-like record with no niche-marked field — including one with zero
fields — fails with the missing-niche-marker error. -/
theorem derive_rejects_malformed_records :
    derive_select RecordFields.unit =
      Except.error "#[derive(Niche)] cannot be used on an empty tuple struct" ∧
    (∀ fs : List RecordField, (∀ f ∈ fs, field_is_niche f = false) →
      derive_select (RecordFields.named fs) =
        Except.error "#[derive(Niche)] requires a field marked #[niche]" ∧
      derive_select (RecordFields.unnamed fs) =
        Except.error "#[derive(Niche)] requires a field marked #[niche]") := by
  refine ⟨rfl, ?_⟩
  intro fs hfs
  have hfind : fs.find? field_is_niche = Option.none :=
    List.find?_eq_none.mpr (fun x hx => by simp [hfs x hx])
  have hfind2 : (enumerate 0 fs).find? (fun p => field_is_niche p.2) =
      Option.none :=
    List.find?_eq_none.mpr
      (fun q hq => by simp [hfs q.2 (enumerate_mem_snd hq)])
  constructor
  · simp [derive_select, hfind]
  · simp [derive_select, hfind2]

/-- Witness for C8 (amended) at concrete records: the unit record, a one-field
named record without a marker, and a one-field tuple record without a
marker. -/
theorem derive_rejects_malformed_records_witness :
    derive_select RecordFields.unit =
      Except.error "#[derive(Niche)] cannot be used on an empty tuple struct" ∧
    derive_select (RecordFields.named [fieldA]) =
      Except.error "#[derive(Niche)] requires a field marked #[niche]" ∧
    derive_select (RecordFields.unnamed [fieldA]) =
      Except.error "#[derive(Niche)] requires a field marked #[niche]" :=
  ⟨derive_rejects_malformed_records.1,
   (derive_rejects_malformed_records.2 [fieldA] (by decide)).1,
   (derive_rejects_malformed_records.2 [fieldA] (by decide)).2⟩

/-- C9: when more than one field carries the niche marker, the macro selects
the first marked field in declaration order (delegating to that field's
identity and type) and silently ignores all later marked fields, for both
named-field and tuple-like records: whenever position `i` holds a marked field
and every earlier position is unmarked, the selection is the field at `i`,
with no constraint on the fields after `i`. -/
theorem first_marked_field_selected (fs : List RecordField) (i : Nat)
    (f : RecordField) (hget : fs.get? i = Option.some f)
    (hmark : field_is_niche f = true)
    (hfirst : ∀ j g, j < i → fs.get? j = Option.some g →
      field_is_niche g = false) :
    (∀ id, f.ident = Option.some id →
      derive_select (RecordFields.named fs) =
        Except.ok (Member.named id, f.ty)) ∧
    derive_select (RecordFields.unnamed fs) =
      Except.ok (Member.unnamed i, f.ty) := by
  have hfind : fs.find? field_is_niche = Option.some f :=
    find?_eq_some_of_first _ fs i f hget hmark hfirst
  constructor
  · intro id hid
    simp [derive_select, hfind, hid]
  · have hgetE : (enumerate 0 fs).get? i = Option.some (i, f) := by
      rw [enumerate_get? 0 fs i, hget]
      simp
    have hfirstE : ∀ j y, j < i → (enumerate 0 fs).get? j = Option.some y →
        field_is_niche y.2 = false := by
      intro j y hj hy
      rw [enumerate_get? 0 fs j] at hy
      cases hg : fs.get? j with
      | none => rw [hg] at hy; simp at hy
      | some g =>
        rw [hg] at hy
        simp only [Option.map_some', Option.some.injEq] at hy
        rw [← hy]
        exact hfirst j g hj hg
    have hfindE : (enumerate 0 fs).find? (fun p => field_is_niche p.2) =
        Option.some (i, f) :=
      find?_eq_some_of_first _ _ i (i, f) hgetE hmark hfirstE
    simp [derive_select, hfindE]

/-- Witness for C9: in a three-field record where both the second and third
fields carry the niche marker, the second field (`b`, the first marked one) is
selected and the third is silently ignored, in both the named and the
tuple-like shape. -/
theorem first_marked_field_selected_witness :
    derive_select (RecordFields.named [fieldA, fieldB, fieldC]) =
      Except.ok (Member.named "b", "NonZeroU32") ∧
    derive_select (RecordFields.unnamed [fieldA, fieldB, fieldC]) =
      Except.ok (Member.unnamed 1, "NonZeroU32") :=
  ⟨(first_marked_field_selected [fieldA, fieldB, fieldC] 1 fieldB rfl (by decide)
      (by
        intro j g hj hg
        have hj0 : j = 0 := Nat.lt_one_iff.mp hj
        subst hj0
        simp only [List.get?] at hg
        cases hg
        decide)).1 "b" rfl,
   (first_marked_field_selected [fieldA, fieldB, fieldC] 1 fieldB rfl (by decide)
      (by
        intro j g hj hg
        have hj0 : j = 0 := Nat.lt_one_iff.mp hj
        subst hj0
        simp only [List.get?] at hg
        cases hg
        decide)).2⟩

/-- C10: for every contract implementation, default construction of the
wrapper is the `None` instance: `default()` equals `ControlledOption::none()`,
its storage is the contract's `none()` sentinel, and whenever the contract is
conforming (`is_none(none())` true) the default instance reads back as
`None`. -/
theorem default_is_none_instance {V S : Type} (N : NicheImpl V S) :
    ControlledOption.default N = ControlledOption.none N ∧
    (ControlledOption.default N).value = N.none ∧
    (N.is_none N.none = true →
      ControlledOption.is_none N (ControlledOption.default N) = true) :=
  ⟨rfl, rfl, fun h => h⟩

/-- Witness for C10 at the `NonZeroU32` conformance. -/
theorem default_is_none_instance_witness :
    ControlledOption.is_none nonZeroU32Niche
      (ControlledOption.default nonZeroU32Niche) = true :=
  (default_is_none_instance nonZeroU32Niche).2.2 (by decide)
